import Mathlib

/-
Shallow embedding of src/analyze.py (travelclim): a per-month climate
comfort pipeline.  Raw rasters (tmin, tmax, vapr, wind) are masked against
physical floors, converted to derived indices (dew point, relative
humidity, wind chill, heat index), and thresholded into tri-state comfort
flags.  Missing cells are modelled as Option.none; numeric values are
idealized as real numbers.  numpy domain errors (log of a non-positive
argument, fractional power of a negative base) produce NaN in the source
and are modelled as none.
-/

noncomputable section

/-- Celsius to Fahrenheit, from c_to_f in analyze.py: temp * 9 / 5. + 32. -/
def c_to_f (temp : ℝ) : ℝ := temp * 9 / 5 + 32

/-- Dew point value in Fahrenheit, the body of dew_point in analyze.py:
vapr is scaled by 10 to hectopascals, l = log(0.16367 * vapr),
dp = 237.3 * l / (17.26939 - l), converted to Fahrenheit. -/
def dew_point_val (vapr : ℝ) : ℝ :=
  c_to_f (237.3 * Real.log (0.16367 * (vapr * 10)) /
    (17.26939 - Real.log (0.16367 * (vapr * 10))))

/-- Dew point with the numpy domain behaviour of analyze.py lines 36-47:
a non-positive log argument yields NaN (log(x) = nan for x < 0, and at
x = 0 the -inf propagates to nan in the quotient), modelled as none. -/
def dew_point (vapr : ℝ) : Option ℝ :=
  if 0.16367 * (vapr * 10) ≤ 0 then none else some (dew_point_val vapr)

/-- Wind chill value in Fahrenheit, the body of wind_chill in analyze.py:
temp converted to Fahrenheit, wind to mph by * 2.23694, we = wind ** 0.16,
wc = 35.74 + 0.6215 t - 35.75 we + 0.4275 t we. -/
def wind_chill_val (temp wind : ℝ) : ℝ :=
  35.74 + 0.6215 * c_to_f temp - 35.75 * (wind * 2.23694) ^ (0.16 : ℝ)
    + 0.4275 * c_to_f temp * (wind * 2.23694) ^ (0.16 : ℝ)

/-- Wind chill with the numpy domain behaviour of analyze.py lines 55-68:
a negative wind makes wind ** 0.16 a fractional power of a negative base,
NaN in numpy, modelled as none; zero wind gives 0 ** 0.16 = 0 and a
finite result. -/
def wind_chill (temp wind : ℝ) : Option ℝ :=
  if wind < 0 then none else some (wind_chill_val temp wind)

/-- Relative humidity as a fraction, from rh in analyze.py:
vapr_sat = 6.11 * 10 ** (7.5 temp / (237.3 + temp)), actual scaled by 10,
result actual / sat. -/
def rh (temp vapr_actual : ℝ) : ℝ :=
  (vapr_actual * 10) / (6.11 * (10 : ℝ) ^ ((7.5 * temp) / (237.3 + temp)))

/-- Rothfusz base regression hi1 of analyze.py lines 82-84, over
Fahrenheit temperature t and the rh series r exactly as passed in. -/
def hi1 (t r : ℝ) : ℝ :=
  -42.379 + 2.04901523 * t + 10.14333127 * r - 0.22475541 * t * r
    - 0.00683783 * t * t - 0.05481717 * r * r + 0.00122874 * t * t * r
    + 0.00085282 * t * r * r - 0.00000199 * t * t * r * r

/-- The regression after the two piecewise corrections, analyze.py lines
86-92: adj1 = hi1 - ((13-rh)/4) sqrt((17-|t-95|)/17) where rh.lt(.13) and
t between 80 and 112 inclusive; adj2 = hi1 + ((rh-85)/10)((87-t)/5) where
rh.gt(.85) and t between 80 and 87 inclusive; adj2 is built from the
original hi1 and its where-mask is applied last. -/
def hi_adj (t r : ℝ) : ℝ :=
  if 0.85 < r ∧ 80 ≤ t ∧ t ≤ 87 then
    hi1 t r + ((r - 85) / 10) * ((87 - t) / 5)
  else if r < 0.13 ∧ 80 ≤ t ∧ t ≤ 112 then
    hi1 t r - ((13 - r) / 4) * Real.sqrt ((17 - |t - 95|) / 17)
  else hi1 t r

/-- Simplified index hi2 of analyze.py line 95. -/
def hi2 (t r : ℝ) : ℝ := 0.5 * (t + 61.0 + (t - 68.0) * 1.2 + r * 0.094)

/-- The averaging test of analyze.py lines 94-96: keep the corrected
regression where (hi1 + t)/2 >= 80, else use hi2. -/
def hi3 (t r : ℝ) : ℝ :=
  if 80 ≤ (hi_adj t r + t) / 2 then hi_adj t r else hi2 t r

/-- The floor override of analyze.py line 97: hi3 where t >= 70, else the
raw Fahrenheit temperature. -/
def hi_floor (t r : ℝ) : ℝ := if 70 ≤ t then hi3 t r else t

/-- Heat index, from heat_index in analyze.py lines 78-99: Celsius input
converted to Fahrenheit, then the staged piecewise selection. -/
def heat_index (temp r : ℝ) : ℝ := hi_floor (c_to_f temp) r

/-- Tri-state heat flag of analyze.py lines 110-112: hi.lt(80), with
cells where hi is null overwritten with NaN. -/
def heat_ok : Option ℝ → Option Bool
  | none => none
  | some x => some (if x < 80 then true else false)

/-- Tri-state cold flag of analyze.py lines 113-115: wc.gt(45), with
cells where wc is null overwritten with NaN. -/
def cold_ok : Option ℝ → Option Bool
  | none => none
  | some x => some (if 45 < x then true else false)

/-- The raster attributes open_file accepts, analyze.py lines 24-29. -/
inductive Attr
  | tmin
  | tmax
  | tavg
  | vapr
  | wind
deriving DecidableEq

/-- Physical floor per attribute, open_file lines 24-29: -273 for
temperatures, 0 for vapor pressure and wind. -/
def minval : Attr → ℝ
  | .tmin => -273
  | .tmax => -273
  | .tavg => -273
  | .vapr => 0
  | .wind => 0

/-- The masking step of open_file line 30: df.where(df > minval) keeps a
value only where it is strictly above the floor, else NaN; a cell that is
already NaN compares false and stays NaN. -/
def open_file_mask (a : Attr) (v : Option ℝ) : Option ℝ :=
  v.bind fun x => if minval a < x then some x else none

/-- Elementwise lift of a total binary formula over possibly-missing
cells: NaN in either input propagates. -/
def lift2 (f : ℝ → ℝ → ℝ) : Option ℝ → Option ℝ → Option ℝ
  | some a, some b => some (f a b)
  | _, _ => none

/-- Elementwise wind chill over cells, propagating missing inputs and the
negative-wind domain error. -/
def wind_chill_cell : Option ℝ → Option ℝ → Option ℝ
  | some t, some w => wind_chill t w
  | _, _ => none

/-- Elementwise dew point over cells. -/
def dew_point_cell (v : Option ℝ) : Option ℝ := v.bind dew_point

/-- Elementwise heat index over cells. -/
def heat_index_cell : Option ℝ → Option ℝ → Option ℝ := lift2 heat_index

/-- Elementwise relative humidity over cells. -/
def rh_cell : Option ℝ → Option ℝ → Option ℝ := lift2 rh

/-- One grid cell of the four aligned input rasters for a month. -/
structure Inputs where
  tmin : Option ℝ
  tmax : Option ℝ
  vapr : Option ℝ
  wind : Option ℝ

/-- The per-cell classification of draw, analyze.py lines 107-115:
wc = wind_chill(tmin, wind), hi = heat_index(tmax, rh(tmax, vapr)),
then the two tri-state threshold flags (heat flag first, cold second). -/
def classify_cell (row : Inputs) : Option Bool × Option Bool :=
  (heat_ok (heat_index_cell row.tmax (rh_cell row.tmax row.vapr)),
   cold_ok (wind_chill_cell row.tmin row.wind))

/-- The whole-table pipeline: classify every coordinate of the aligned
input table.  Coordinates are (longitude, latitude) pairs. -/
def pipeline (table : ℚ × ℚ → Inputs) : ℚ × ℚ → Option Bool × Option Bool :=
  fun c => classify_cell (table c)

/-- A concrete one-value table used to instantiate table-level theorems. -/
def sample_table : ℚ × ℚ → Inputs :=
  fun _ => ⟨some (-5), some 30, some 2, some 3⟩

end

/-- Evaluation of the heat index at temp_c = 35 (temp_f = 95) and the rh
fraction 1/2: every branch condition resolves (no correction, averaging
test passes, floor test passes) and the regression value is exact. -/
lemma heat_index_35_half : heat_index 35 (1/2) = 90.508564255 := by
  have hc : c_to_f 35 = 95 := by unfold c_to_f; norm_num
  have h1 : hi1 95 (1/2) = 90.508564255 := by unfold hi1; norm_num
  have hadj : hi_adj 95 (1/2) = hi1 95 (1/2) := by
    unfold hi_adj
    rw [if_neg (by norm_num), if_neg (by norm_num)]
  have h3 : hi3 95 (1/2) = hi_adj 95 (1/2) := by
    unfold hi3
    rw [if_pos (by rw [hadj, h1]; norm_num)]
  unfold heat_index
  rw [hc]
  unfold hi_floor
  rw [if_pos (by norm_num), h3, hadj, h1]

/-- Evaluation at temp_f exactly 70 (temp_c = 190/9) and rh = 1/2: the
floor test temp_f >= 70 holds, the averaging test fails (hi1 is about
67.76, so the mean with 70 is below 80), hence the simplified hi2 value
66.7235 is returned rather than the raw temperature. -/
lemma heat_index_f70_half : heat_index (190/9) (1/2) = 66.7235 := by
  have hc : c_to_f (190/9) = 70 := by unfold c_to_f; norm_num
  have hadj : hi_adj 70 (1/2) = hi1 70 (1/2) := by
    unfold hi_adj
    rw [if_neg (by norm_num), if_neg (by norm_num)]
  have h1 : hi1 70 (1/2) = 67.7611206925 := by unfold hi1; norm_num
  have h3 : hi3 70 (1/2) = hi2 70 (1/2) := by
    unfold hi3
    rw [if_neg (by rw [hadj, h1]; norm_num)]
  unfold heat_index
  rw [hc]
  unfold hi_floor
  rw [if_pos (by norm_num), h3]
  unfold hi2
  norm_num

/-- At zero wind the power 0 ** 0.16 is 0, so both wind terms vanish and
wind_chill returns the finite value 35.74 + 0.6215 * temp_f. -/
lemma wind_chill_zero_wind (t : ℝ) :
    wind_chill t 0 = some (35.74 + 0.6215 * c_to_f t) := by
  unfold wind_chill
  rw [if_neg (lt_irrefl 0)]
  unfold wind_chill_val
  rw [zero_mul, Real.zero_rpow (by norm_num)]
  ring_nf

/-- For a fixed sub-freezing temperature the coefficient of the wind term,
0.4275 * temp_f - 35.75, is negative, and w ** 0.16 is strictly
increasing on positive winds, so the wind chill value strictly falls as
the wind rises. -/
lemma wind_chill_val_mono (t w1 w2 : ℝ) (ht : t < 0) (h1 : 0 < w1)
    (h12 : w1 < w2) : wind_chill_val t w2 < wind_chill_val t w1 := by
  have hT : c_to_f t < 32 := by unfold c_to_f; linarith
  have hE : (w1 * 2.23694) ^ (0.16 : ℝ) < (w2 * 2.23694) ^ (0.16 : ℝ) :=
    Real.rpow_lt_rpow (by positivity) (by nlinarith) (by norm_num)
  have hc : 0.4275 * c_to_f t - 35.75 < 0 := by linarith
  unfold wind_chill_val
  nlinarith [mul_lt_mul_of_neg_right hE hc]

/-- Claim C1, counterexample: heat_index at temp_c = 35 (temp_f = 95) and
rh_fraction = 0.50 evaluates to 90.508564255 degF, more than 9 degF below
the 37.6 degC-equivalent (c_to_f 37.6 = 99.68 degF) that the claim takes
from the NOAA table, because the regression receives rh as a fraction
rather than on the reference formula percentage scale. -/
theorem heat_index_noaa_counterexample :
    heat_index 35 (1/2) = 90.508564255 ∧
    9 < |heat_index 35 (1/2) - c_to_f 37.6| := by
  have hc : c_to_f 37.6 = 99.68 := by unfold c_to_f; norm_num
  refine ⟨heat_index_35_half, ?_⟩
  rw [heat_index_35_half, hc, abs_of_neg (by norm_num)]
  norm_num

/-- Claim C1, amended: the code passes the rh fraction straight into the
Rothfusz regression with no rescaling to percent, so
heat_index(temp_c = 35, rh_fraction = 0.50) equals exactly 90.508564255
degF (about 32.5 degC), not the NOAA chart value for 95 degF at 50
percent relative humidity. -/
theorem heat_index_fraction_convention : heat_index 35 (1/2) = 90.508564255 :=
  heat_index_35_half

/-- Claim C2, counterexample: at temp_f exactly 70 (temp_c = 190/9) the
floor test temp.ge(70) holds, so the staged formula is used and the heat
index (66.7235 degF at rh = 1/2) differs from the raw temp_f of 70. -/
theorem heat_index_floor_boundary_counterexample :
    c_to_f (190/9) = 70 ∧ heat_index (190/9) (1/2) ≠ c_to_f (190/9) := by
  have hc : c_to_f (190/9) = 70 := by unfold c_to_f; norm_num
  exact ⟨hc, by rw [heat_index_f70_half, hc]; norm_num⟩

/-- Claim C2, amended: the heat index equals the raw Fahrenheit
temperature exactly when temp_f < 70 strictly; for temp_f >= 70,
including temp_f exactly 70, the result is the staged value hi3, in
which the averaging test has already been applied, so the averaging test
precedes the floor override. -/
theorem heat_index_floor_strict (t r : ℝ) :
    (c_to_f t < 70 → heat_index t r = c_to_f t) ∧
    (70 ≤ c_to_f t → heat_index t r = hi3 (c_to_f t) r) := by
  constructor
  · intro h
    unfold heat_index hi_floor
    rw [if_neg (not_le.mpr h)]
  · intro h
    unfold heat_index hi_floor
    rw [if_pos h]

/-- Witness for claim C2 at temp_c = 0: temp_f = 32 < 70, so the heat
index is the raw Fahrenheit temperature. -/
theorem heat_index_floor_strict_witness : heat_index 0 (1/2) = c_to_f 0 :=
  (heat_index_floor_strict 0 (1/2)).1 (by unfold c_to_f; norm_num)

/-- Claim C3: the low-humidity correction is applied exactly under
rh < 0.13 and 80 <= temp_f <= 112 inclusive, the high-humidity correction
exactly under 0.85 < rh and 80 <= temp_f <= 87 inclusive; when neither
strict condition holds, in particular at rh exactly 0.13 or exactly 0.85,
the regression value is left unchanged. -/
theorem hi_adj_conditions (t r : ℝ) :
    (r < 0.13 ∧ 80 ≤ t ∧ t ≤ 112 →
      hi_adj t r = hi1 t r - ((13 - r) / 4) * Real.sqrt ((17 - |t - 95|) / 17)) ∧
    (0.85 < r ∧ 80 ≤ t ∧ t ≤ 87 →
      hi_adj t r = hi1 t r + ((r - 85) / 10) * ((87 - t) / 5)) ∧
    (¬(r < 0.13 ∧ 80 ≤ t ∧ t ≤ 112) ∧ ¬(0.85 < r ∧ 80 ≤ t ∧ t ≤ 87) →
      hi_adj t r = hi1 t r) ∧
    (r = 0.13 → hi_adj t r = hi1 t r) ∧
    (r = 0.85 → hi_adj t r = hi1 t r) := by
  refine ⟨?_, ?_, ?_, ?_, ?_⟩
  · intro h
    unfold hi_adj
    rw [if_neg (fun hh => absurd (lt_trans hh.1 h.1) (by norm_num)), if_pos h]
  · intro h
    unfold hi_adj
    rw [if_pos h]
  · intro h
    unfold hi_adj
    rw [if_neg h.2, if_neg h.1]
  · intro h
    subst h
    unfold hi_adj
    rw [if_neg (by norm_num), if_neg (by norm_num)]
  · intro h
    subst h
    unfold hi_adj
    rw [if_neg (by norm_num), if_neg (by norm_num)]

/-- Witness for claim C3 at temp_f = 90 and rh = 1/10: the low-humidity
condition holds and the subtraction correction is applied. -/
theorem hi_adj_conditions_witness :
    hi_adj 90 (1/10) =
      hi1 90 (1/10) - ((13 - 1/10) / 4) * Real.sqrt ((17 - |(90:ℝ) - 95|) / 17) :=
  (hi_adj_conditions 90 (1/10)).1 (by norm_num)

/-- Claim C4, counterexample: at zero wind the source computes
0 ** 0.16 = 0 and returns the finite value 35.74 + 0.6215 * temp_f, so
wind_chill(-10, 0) is some 44.441 and not a missing cell. -/
theorem wind_chill_zero_counterexample :
    wind_chill (-10) 0 = some 44.441 ∧ wind_chill (-10) 0 ≠ none := by
  have h : wind_chill (-10) 0 = some 44.441 := by
    rw [wind_chill_zero_wind]
    unfold c_to_f
    norm_num
  exact ⟨h, by rw [h]; simp⟩

/-- Claim C4, amended: wind_chill is missing for strictly negative wind
(the fractional power of a negative base propagates as missing, not as a
fatal error); at zero wind it returns the finite value
35.74 + 0.6215 * temp_f because 0 ** 0.16 = 0; missing inputs propagate
to a missing output cell. -/
theorem wind_chill_domain (t w : ℝ) :
    (w < 0 → wind_chill t w = none) ∧
    (wind_chill t 0 = some (35.74 + 0.6215 * c_to_f t)) ∧
    wind_chill_cell none (some w) = none ∧
    wind_chill_cell (some t) none = none := by
  refine ⟨?_, wind_chill_zero_wind t, rfl, rfl⟩
  intro h
  unfold wind_chill
  rw [if_pos h]

/-- Witness for claim C4: a wind of -1 yields a missing wind chill. -/
theorem wind_chill_domain_witness : wind_chill (-10) (-1) = none :=
  (wind_chill_domain (-10) (-1)).1 (by norm_num)

/-- Claim C5: each comfort flag is missing exactly when its index is
missing, and on a present value heat_ok is true exactly when the heat
index is below 80 degF and cold_ok is true exactly when the wind chill
is above 45 degF; a present value never yields a missing flag. -/
theorem tri_state_flags (x : ℝ) (hi wc : Option ℝ) :
    (heat_ok hi = none ↔ hi = none) ∧
    (cold_ok wc = none ↔ wc = none) ∧
    (heat_ok (some x) = some true ↔ x < 80) ∧
    (heat_ok (some x) = some false ↔ ¬x < 80) ∧
    (cold_ok (some x) = some true ↔ 45 < x) ∧
    (cold_ok (some x) = some false ↔ ¬45 < x) := by
  refine ⟨?_, ?_, ?_, ?_, ?_, ?_⟩
  · cases hi <;> simp [heat_ok]
  · cases wc <;> simp [cold_ok]
  · by_cases h : x < 80 <;> simp [heat_ok, h]
  · by_cases h : x < 80 <;> simp [heat_ok, h]
  · by_cases h : 45 < x <;> simp [cold_ok, h]
  · by_cases h : 45 < x <;> simp [cold_ok, h]

/-- Claim C6: the dew point is missing whenever the log argument
0.16367 * (vapr * 10) is non-positive, in particular whenever the vapor
pressure itself is non-positive, and a missing input cell stays missing;
no error escapes the cell. -/
theorem dew_point_domain (v : ℝ) :
    (v ≤ 0 → dew_point v = none) ∧
    (0.16367 * (v * 10) ≤ 0 → dew_point v = none) ∧
    dew_point_cell none = none := by
  have key : 0.16367 * (v * 10) ≤ 0 → dew_point v = none := by
    intro h
    unfold dew_point
    rw [if_pos h]
  exact ⟨fun hv => key (by nlinarith), key, rfl⟩

/-- Witness for claim C6: zero vapor pressure yields a missing dew
point. -/
theorem dew_point_domain_witness : dew_point 0 = none :=
  (dew_point_domain 0).1 le_rfl

/-- Claim C7: for a fixed sub-freezing temperature and positive winds
w1 < w2, the wind chill at w2 is strictly below the wind chill at w1,
and on positive winds wind_chill returns exactly the deterministic
formula value wind_chill_val. -/
theorem wind_chill_strict_mono (t w1 w2 : ℝ) (ht : t < 0) (h1 : 0 < w1)
    (h12 : w1 < w2) :
    wind_chill t w2 = some (wind_chill_val t w2) ∧
    wind_chill t w1 = some (wind_chill_val t w1) ∧
    wind_chill_val t w2 < wind_chill_val t w1 := by
  refine ⟨?_, ?_, wind_chill_val_mono t w1 w2 ht h1 h12⟩
  · unfold wind_chill
    rw [if_neg (not_lt.mpr (le_of_lt (lt_trans h1 h12)))]
  · unfold wind_chill
    rw [if_neg (not_lt.mpr (le_of_lt h1))]

/-- Witness for claim C7 at temp_c = -10 with winds 10 and 20 m/s: both
calls return the formula value and the chill strictly drops. -/
theorem wind_chill_strict_mono_witness :
    wind_chill (-10) 20 = some (wind_chill_val (-10) 20) ∧
    wind_chill (-10) 10 = some (wind_chill_val (-10) 10) ∧
    wind_chill_val (-10) 20 < wind_chill_val (-10) 10 :=
  wind_chill_strict_mono (-10) 10 20 (by norm_num) (by norm_num) (by norm_num)

/-- Claim C8: the pipeline is a pure function of the input table: two
runs on identical tables yield identical classification tables at every
coordinate, with no state shared between runs or months. -/
theorem pipeline_deterministic (f g : ℚ × ℚ → Inputs)
    (h : ∀ c, f c = g c) : ∀ c, pipeline f c = pipeline g c := by
  intro c
  unfold pipeline
  rw [h c]

/-- Witness for claim C8 on a concrete table at the origin. -/
theorem pipeline_deterministic_witness :
    pipeline sample_table (0, 0) = pipeline sample_table (0, 0) :=
  pipeline_deterministic sample_table sample_table (fun _ => rfl) (0, 0)

/-- Claim C9: the cold flag of a cell is exactly the wind chill of
(tmin, wind) thresholded, the heat flag exactly the heat index of
(tmax, rh(tmax, vapr)) thresholded; the cold flag does not depend on
tmax or vapr and the heat flag does not depend on tmin or wind. -/
theorem classify_data_flow (r1 r2 : Inputs) :
    (classify_cell r1).2 = cold_ok (wind_chill_cell r1.tmin r1.wind) ∧
    (classify_cell r1).1 =
      heat_ok (heat_index_cell r1.tmax (rh_cell r1.tmax r1.vapr)) ∧
    (r1.tmin = r2.tmin → r1.wind = r2.wind →
      (classify_cell r1).2 = (classify_cell r2).2) ∧
    (r1.tmax = r2.tmax → r1.vapr = r2.vapr →
      (classify_cell r1).1 = (classify_cell r2).1) := by
  refine ⟨rfl, rfl, ?_, ?_⟩
  · intro h1 h2
    unfold classify_cell
    rw [h1, h2]
  · intro h1 h2
    unfold classify_cell
    rw [h1, h2]

/-- Witness for claim C9: two rows sharing tmin and wind but with
different tmax values get the same cold flag. -/
theorem classify_data_flow_witness :
    (classify_cell ⟨some (-5), some 30, some 2, some 3⟩).2 =
    (classify_cell ⟨some (-5), some 99, some 2, some 3⟩).2 :=
  (classify_data_flow ⟨some (-5), some 30, some 2, some 3⟩
    ⟨some (-5), some 99, some 2, some 3⟩).2.2.1 rfl rfl

/-- Claim C10: the loader mask keeps only values strictly above the
attribute floor — any value it passes through satisfies minval a < x —
and a value exactly at the floor is marked missing, so zero wind, zero
vapor pressure or a temperature of minus 273 never leaves the loader. -/
theorem open_file_mask_strict (a : Attr) (v : Option ℝ) (x : ℝ) :
    (open_file_mask a v = some x → minval a < x) ∧
    open_file_mask a (some (minval a)) = none := by
  constructor
  · intro h
    cases v with
    | none => exact absurd h (by simp [open_file_mask])
    | some y =>
      by_cases hy : minval a < y
      · have hv : open_file_mask a (some y) = some y := by
          simp [open_file_mask, hy]
        rw [hv] at h
        obtain rfl : y = x := by injection h
        exact hy
      · have hv : open_file_mask a (some y) = none := by
          simp [open_file_mask, hy]
        rw [hv] at h
        exact absurd h (by simp)
  · simp [open_file_mask]

/-- Witness for claim C10: the wind value 1 survives the mask, hence is
strictly above the wind floor of 0. -/
theorem open_file_mask_strict_witness : minval Attr.wind < 1 :=
  (open_file_mask_strict Attr.wind (some 1) 1).1
    (by norm_num [open_file_mask, minval])
